import Mathlib

/-!
Verification of the APA citation-formatting core of the
Change_Reference_Format repository.

The repository has two scripts, src/reference_format/fetch_apa_excel.py and
src/reference_format/fetch_apa_word.py.  Each one fetches CrossRef metadata
for a title, turns the best-match item into a metadata record, and composes
an APA 7 citation (a single string in the excel script, a structured record
in the word script).  The network fetch, CSV reading and file writing are
I/O glue; the definitions below embed the formatting logic:

 * the author-processing loop shared verbatim by both scripts
   (fetch_apa_excel.py lines 23-31, fetch_apa_word.py lines 20-27),
 * the excel script's count-based author combination (lines 33-41) and the
   word script's flat join (line 30),
 * the construction of the metadata record from a fetched item
   (excel lines 43-52, word lines 29-38),
 * the two format_apa composers (excel lines 60-77, word lines 46-73).

Python strings are Lean String, Python dict-with-optional-keys fields are
Option, and an operation that can raise (list indexing on an empty list,
dict access on a missing key) returns Option, none standing for the raised
exception (which the scripts' outer except turns into an Error record).
-/

/-- One element of a CrossRef item's author array.  The scripts read the
given and family keys with a default of the empty string, so an absent key
is modelled as none and read through Option.getD. -/
structure RawAuthor where
  given : Option String
  family : Option String
deriving DecidableEq, Repr

/-- Python str.split() with no separator: split on runs of whitespace,
producing no empty tokens.  The accumulator holds the chars of the current
token in reverse. -/
def splitWsAux : List Char → List Char → List String
  | [], [] => []
  | [], acc => [String.mk acc.reverse]
  | c :: cs, acc =>
    if c.isWhitespace then
      if acc = [] then splitWsAux cs [] else String.mk acc.reverse :: splitWsAux cs []
    else
      splitWsAux cs (c :: acc)

/-- Python given.split() as used by both scripts. -/
def pySplit (s : String) : List String :=
  splitWsAux s.data []

/-- Embeds the initials computation shared by both scripts
(fetch_apa_excel.py line 30, fetch_apa_word.py line 26):
" ".join([name[0] + "." for name in given.split()]). -/
def initialsOf (given : String) : String :=
  String.intercalate " " ((pySplit given).map (fun name => name.take 1 ++ "."))

/-- Embeds one iteration of the author loop shared by both scripts
(fetch_apa_excel.py lines 26-31, fetch_apa_word.py lines 23-27): read given
and family with default "", and when both are truthy append
"{family}, {initials}"; none models an author contributing no entry. -/
def formatAuthorEntry (a : RawAuthor) : Option String :=
  if a.given.getD "" ≠ "" ∧ a.family.getD "" ≠ "" then
    some (a.family.getD "" ++ ", " ++ initialsOf (a.given.getD ""))
  else
    none

/-- The Python truthiness test guarding the append, as a Bool. -/
def usableAuthor (a : RawAuthor) : Bool :=
  a.given.getD "" != "" && a.family.getD "" != ""

/-- The entry appended for a usable author. -/
def renderEntry (a : RawAuthor) : String :=
  a.family.getD "" ++ ", " ++ initialsOf (a.given.getD "")

/-- Embeds the whole author loop: authors = []; if "author" in item:
for author in item["author"]: ... append.  An absent author key leaves the
list empty. -/
def collectAuthors : Option (List RawAuthor) → List String
  | none => []
  | some l => l.filterMap formatAuthorEntry

/-- The metadata dictionary both scripts build on a successful lookup,
as a structure (all eight keys are always assigned).  Year holds the
string rendering of the year value, since the composers only ever
interpolate it into text. -/
structure MetadataRecord where
  Author : String
  Year : String
  Title : String
  Journal : String
  Volume : String
  Issue : String
  Pages : String
  DOI : String
deriving DecidableEq, Repr

/-- A fetch_metadata result: either the metadata dictionary or a dictionary
carrying only an Error message. -/
inductive Metadata where
  | ok : MetadataRecord → Metadata
  | error : String → Metadata
deriving DecidableEq, Repr

/-- A CrossRef item as the scripts read it: each key may be absent. -/
structure Item where
  author : Option (List RawAuthor)
  datePartsPublishedPrint : Option (List (List (Option Nat)))
  containerTitle : Option (List String)
  volume : Option String
  issue : Option String
  page : Option String
  doi : Option String
deriving Repr

/-- Embeds item.get("published-print", \x7b\x7d).get("date-parts", [[None]])[0][0]
followed by the truthiness fallback to "n.d." (excel line 45, word line 31).
The outer none models the IndexError raised by [0] on an empty list; the
value None and the year 0 are both falsy, hence "n.d.". -/
def yearField (item : Item) : Option String :=
  match item.datePartsPublishedPrint.getD [[none]] with
  | [] => none
  | row :: _ =>
    match row with
    | [] => none
    | cell :: _ =>
      match cell with
      | some n => some (if n = 0 then "n.d." else toString n)
      | none => some "n.d."

/-- Embeds item.get("container-title", ["N/A"])[0] or "N/A" (excel line 47,
word line 33); none models the IndexError on an empty container-title. -/
def journalField (item : Item) : Option String :=
  match item.containerTitle.getD ["N/A"] with
  | [] => none
  | j :: _ => some (if j = "" then "N/A" else j)

/-- Embeds the issue rendering shared by the two composers
(fetch_apa_excel.py line 72, fetch_apa_word.py line 58):
parenthesized when the Issue value is not the "N/A" sentinel, else empty. -/
def issueRendering (issue : String) : String :=
  if issue ≠ "N/A" then "(" ++ issue ++ ")" else ""

/-- Embeds the DOI rendering shared by the two composers
(fetch_apa_excel.py line 74, fetch_apa_word.py line 60):
a resolver URL when the DOI value is not the "N/A" sentinel, else "N/A". -/
def doiRendering (doi : String) : String :=
  if doi ≠ "N/A" then "https://doi.org/" ++ doi else "N/A"

namespace fetch_apa_excel

/-- Embeds the author combination of fetch_apa_excel.py lines 33-41:
count-based APA rules over the collected entries. -/
def combineAuthors (authors : List String) : String :=
  if authors.length = 1 then
    authors.headD ""
  else if authors.length = 2 then
    String.intercalate " & " authors
  else if authors.length > 2 then
    String.intercalate ", " authors.dropLast ++ ", & " ++ authors.getLastD ""
  else
    "N/A"

/-- The excel script's Author value for an item's author field. -/
def authorString (af : Option (List RawAuthor)) : String :=
  combineAuthors (collectAuthors af)

/-- Embeds the metadata construction of fetch_apa_excel.py lines 43-52.
none models the exception path (IndexError inside a field expression),
which the script's except clause turns into an Error record. -/
def buildRecord (title : String) (item : Item) : Option MetadataRecord :=
  match yearField item, journalField item with
  | some year, some journal =>
    some { Author := authorString item.author
           Year := year
           Title := title
           Journal := journal
           Volume := item.volume.getD "N/A"
           Issue := item.issue.getD "N/A"
           Pages := item.page.getD "N/A"
           DOI := item.doi.getD "N/A" }
  | _, _ => none

/-- Embeds format_apa of fetch_apa_excel.py lines 60-77: pass an Error
value through verbatim, otherwise interpolate the eight fields into the
APA template with the issue and DOI conditionals of lines 72 and 74. -/
def format_apa (m : Metadata) : String :=
  match m with
  | .error e => e
  | .ok md =>
    md.Author ++ " (" ++ md.Year ++ "). " ++ md.Title ++ ". *" ++ md.Journal ++
      "*, " ++ md.Volume ++ issueRendering md.Issue ++ ", " ++ md.Pages ++ ". " ++
      doiRendering md.DOI

end fetch_apa_excel

namespace fetch_apa_word

/-- Embeds the author combination of fetch_apa_word.py line 30:
", ".join(authors) if authors else "N/A". -/
def combineAuthors (authors : List String) : String :=
  if authors ≠ [] then String.intercalate ", " authors else "N/A"

/-- The word script's Author value for an item's author field. -/
def authorString (af : Option (List RawAuthor)) : String :=
  combineAuthors (collectAuthors af)

/-- Embeds the metadata construction of fetch_apa_word.py lines 29-38;
identical to the excel one except for the author combination. -/
def buildRecord (title : String) (item : Item) : Option MetadataRecord :=
  match yearField item, journalField item with
  | some year, some journal =>
    some { Author := authorString item.author
           Year := year
           Title := title
           Journal := journal
           Volume := item.volume.getD "N/A"
           Issue := item.issue.getD "N/A"
           Pages := item.page.getD "N/A"
           DOI := item.doi.getD "N/A" }
  | _, _ => none

/-- The structured reference dictionary returned by the word script's
format_apa on success. -/
structure ApaReference where
  Author : String
  Year : String
  Title : String
  Journal : String
  Volume : String
  Issue : String
  Pages : String
  DOI : String
deriving DecidableEq, Repr

/-- A word-script format_apa result: the verbatim error string, or the
structured reference. -/
inductive ApaResult where
  | errorMsg : String → ApaResult
  | ref : ApaReference → ApaResult
deriving DecidableEq, Repr

/-- Embeds format_apa of fetch_apa_word.py lines 46-73: pass an Error value
through verbatim, otherwise build the structured record with the issue and
DOI conditionals of lines 58 and 60. -/
def format_apa (m : Metadata) : ApaResult :=
  match m with
  | .error e => .errorMsg e
  | .ok md =>
    .ref { Author := md.Author
           Year := md.Year
           Title := md.Title
           Journal := md.Journal
           Volume := md.Volume
           Issue := issueRendering md.Issue
           Pages := md.Pages
           DOI := doiRendering md.DOI }

end fetch_apa_word

/-!
A second, lower-level view of the two composers for the safety claim: the
metadata argument as the Python dictionary it is, an association list of
string keys, where an access to a missing key returns none (the raised
KeyError).  This keeps the possibility of a key being absent observable,
so that totality on well-shaped dictionaries is a statement and not a
typing accident.
-/

/-- Python dictionary access metadata[k] over an association list;
none models the raised KeyError. -/
def dictGet (m : List (String × String)) (k : String) : Option String :=
  (m.find? (fun p => p.1 == k)).map (fun p => p.2)

/-- A well-shaped metadata dictionary: no Error marker, and all eight
fields present. -/
def wellShapedDict (m : List (String × String)) : Prop :=
  dictGet m "Error" = none ∧
  (dictGet m "Author").isSome = true ∧
  (dictGet m "Year").isSome = true ∧
  (dictGet m "Title").isSome = true ∧
  (dictGet m "Journal").isSome = true ∧
  (dictGet m "Volume").isSome = true ∧
  (dictGet m "Issue").isSome = true ∧
  (dictGet m "Pages").isSome = true ∧
  (dictGet m "DOI").isSome = true

namespace fetch_apa_excel

/-- Embeds format_apa of fetch_apa_excel.py lines 60-77 over the
dictionary view, reading the keys in the source's order; a missing key
propagates as none. -/
def format_apa_onDict (m : List (String × String)) : Option String :=
  match dictGet m "Error" with
  | some e => some e
  | none =>
    (dictGet m "Author").bind fun author =>
    (dictGet m "Year").bind fun year =>
    (dictGet m "Title").bind fun title =>
    (dictGet m "Journal").bind fun journal =>
    (dictGet m "Volume").bind fun volume =>
    (dictGet m "Issue").bind fun issueRaw =>
    (dictGet m "Pages").bind fun pages =>
    (dictGet m "DOI").bind fun doiRaw =>
    some (author ++ " (" ++ year ++ "). " ++ title ++ ". *" ++ journal ++
      "*, " ++ volume ++ issueRendering issueRaw ++ ", " ++ pages ++ ". " ++
      doiRendering doiRaw)

end fetch_apa_excel

namespace fetch_apa_word

/-- Embeds format_apa of fetch_apa_word.py lines 46-73 over the
dictionary view, reading the keys in the source's order; a missing key
propagates as none. -/
def format_apa_onDict (m : List (String × String)) : Option ApaResult :=
  match dictGet m "Error" with
  | some e => some (.errorMsg e)
  | none =>
    (dictGet m "Author").bind fun author =>
    (dictGet m "Year").bind fun year =>
    (dictGet m "Title").bind fun title =>
    (dictGet m "Journal").bind fun journal =>
    (dictGet m "Volume").bind fun volume =>
    (dictGet m "Issue").bind fun issueRaw =>
    (dictGet m "Pages").bind fun pages =>
    (dictGet m "DOI").bind fun doiRaw =>
    some (.ref { Author := author
                 Year := year
                 Title := title
                 Journal := journal
                 Volume := volume
                 Issue := issueRendering issueRaw
                 Pages := pages
                 DOI := doiRendering doiRaw })

end fetch_apa_word

/-!
Spec-side definitions, written from the specification's wording so the
code-side definitions above can be compared against them.
-/

/-- Follows the wording of spec section 4.1 rule 3, the combination rule
by resulting list length: 0 authors give the literal "N/A", 1 the single
name, 2 the pair with an ampersand, and 3 or more all but the last joined
with ", " followed by ", & " and the last. -/
def specCombine : List String → String
  | [] => "N/A"
  | [a] => a
  | [a, b] => a ++ " & " ++ b
  | l@(_ :: _ :: _ :: _) =>
    String.intercalate ", " l.dropLast ++ ", & " ++ l.getLastD ""

/-- Follows the wording of spec section 4.2, the citation template
"Author (Year). Title. *Journal*, VolumeIssue, Pages. DOI" with the issue
parenthesized when not "N/A" and the DOI rendered as a resolver URL when
not "N/A". -/
def specCitation (md : MetadataRecord) : String :=
  String.join [md.Author, " (", md.Year, "). ", md.Title, ". *", md.Journal,
    "*, ", md.Volume, if md.Issue ≠ "N/A" then "(" ++ md.Issue ++ ")" else "",
    ", ", md.Pages, ". ",
    if md.DOI ≠ "N/A" then "https://doi.org/" ++ md.DOI else "N/A"]

/-!
Helper lemmas.
-/

theorem combineAuthors_eq_specCombine :
    ∀ l, fetch_apa_excel.combineAuthors l = specCombine l
  | [] => rfl
  | [_] => rfl
  | [_, _] => rfl
  | a :: b :: c :: t => by
    have h3 : 2 < (a :: b :: c :: t).length := by
      simp only [List.length_cons]
      omega
    unfold fetch_apa_excel.combineAuthors
    rw [if_pos h3]
    rfl

theorem formatAuthorEntry_eq (a : RawAuthor) :
    formatAuthorEntry a = if usableAuthor a then some (renderEntry a) else none := by
  simp only [formatAuthorEntry, usableAuthor, renderEntry, Bool.and_eq_true,
    bne_iff_ne]

theorem collectAuthors_eq_filter (l : List RawAuthor) :
    collectAuthors (some l) = (l.filter usableAuthor).map renderEntry := by
  show l.filterMap formatAuthorEntry = _
  induction l with
  | nil => rfl
  | cons a l ih =>
    rw [List.filterMap_cons, List.filter_cons, formatAuthorEntry_eq]
    cases hu : usableAuthor a
    · simp [ih]
    · simp [ih]

/-!
Claim theorems.
-/

/-- C1: the excel script's combined author string follows the
APA combination rule by resulting list length: "N/A" for zero usable
authors, the single name for one, an ampersand pair for two, and the
Oxford-comma-with-ampersand form for three or more; on the spec's
three-author example it yields "Smith, J., Doe, J., & Lee, K.". -/
theorem apa_author_combination_excel (af : Option (List RawAuthor)) :
    fetch_apa_excel.authorString af = specCombine (collectAuthors af) ∧
    fetch_apa_excel.authorString
      (some [⟨some "John", some "Smith"⟩, ⟨some "Jane", some "Doe"⟩,
             ⟨some "Kim", some "Lee"⟩]) = "Smith, J., Doe, J., & Lee, K." :=
  ⟨combineAuthors_eq_specCombine _, by decide⟩

/-- C2: for every well-shaped record the excel composer produces exactly
the template "Author (Year). Title. *Journal*, VolumeIssue, Pages. DOI",
with the issue parenthesized when not "N/A" and the DOI rendered as a
resolver URL when not "N/A"; the spec's end-to-end example record composes
to "Lee, A. (2020). Study X. *J. of Things*, 5(2), 10-20.
https://doi.org/10.1/abc". -/
theorem citation_template (md : MetadataRecord) :
    fetch_apa_excel.format_apa (.ok md) = specCitation md ∧
    fetch_apa_excel.format_apa (.ok ⟨"Lee, A.", "2020", "Study X",
      "J. of Things", "5", "2", "10-20", "10.1/abc"⟩) =
      "Lee, A. (2020). Study X. *J. of Things*, 5(2), 10-20. https://doi.org/10.1/abc" ∧
    fetch_apa_excel.authorString (some [⟨some "Ann", some "Lee"⟩]) = "Lee, A." := by
  refine ⟨?_, by decide, by decide⟩
  simp [fetch_apa_excel.format_apa, specCitation, String.join, List.foldl,
    issueRendering, doiRendering, String.empty_append]

/-- C4: a metadata value carrying an error marker with message m makes
both composers return exactly m, with no template text around it; in
particular the "No data found for this title." marker passes through
verbatim. -/
theorem error_passthrough (e : String) :
    fetch_apa_excel.format_apa (.error e) = e ∧
    fetch_apa_word.format_apa (.error e) = .errorMsg e ∧
    fetch_apa_excel.format_apa (.error "No data found for this title.") =
      "No data found for this title." ∧
    fetch_apa_word.format_apa (.error "No data found for this title.") =
      .errorMsg "No data found for this title." :=
  ⟨rfl, rfl, rfl, rfl⟩

/-- C3: the two export paths do not share the author-combination rule:
on the same two-author input the excel path produces the APA ampersand
form while the word path flat-joins with ", ", so the two Author strings
differ. -/
theorem author_join_divergence :
    fetch_apa_excel.authorString
      (some [⟨some "John", some "Smith"⟩, ⟨some "Jane", some "Doe"⟩]) =
      "Smith, J. & Doe, J." ∧
    fetch_apa_word.authorString
      (some [⟨some "John", some "Smith"⟩, ⟨some "Jane", some "Doe"⟩]) =
      "Smith, J., Doe, J." ∧
    fetch_apa_excel.authorString
      (some [⟨some "John", some "Smith"⟩, ⟨some "Jane", some "Doe"⟩]) ≠
    fetch_apa_word.authorString
      (some [⟨some "John", some "Smith"⟩, ⟨some "Jane", some "Doe"⟩]) :=
  ⟨by decide, by decide, by decide⟩

/-- C5: an author with both names non-empty renders as
"family, initials", the initials obtained by splitting the given name on
whitespace, taking the first character of each token, appending "." to
each and joining with a single space; "John Michael" yields "J. M.". -/
theorem author_entry_rendering (a : RawAuthor)
    (hg : a.given.getD "" ≠ "") (hf : a.family.getD "" ≠ "") :
    formatAuthorEntry a = some (a.family.getD "" ++ ", " ++
      String.intercalate " "
        ((pySplit (a.given.getD "")).map (fun t => t.take 1 ++ "."))) ∧
    initialsOf "John Michael" = "J. M." := by
  refine ⟨?_, by decide⟩
  unfold formatAuthorEntry
  rw [if_pos ⟨hg, hf⟩]
  rfl

theorem author_entry_rendering_witness :
    formatAuthorEntry ⟨some "John Michael", some "Smith"⟩ =
      some ("Smith" ++ ", " ++ String.intercalate " "
        ((pySplit "John Michael").map (fun t => t.take 1 ++ "."))) :=
  (author_entry_rendering ⟨some "John Michael", some "Smith"⟩
    (by decide) (by decide)).1

/-- C6: authors whose given or family field is missing or empty are
silently dropped: the collected entries are exactly the rendered usable
authors, and when no author is usable both scripts produce the "N/A"
placeholder instead of failing. -/
theorem unusable_authors_dropped (af : List RawAuthor) :
    collectAuthors (some af) = (af.filter usableAuthor).map renderEntry ∧
    (af.filter usableAuthor = [] →
      fetch_apa_excel.authorString (some af) = "N/A" ∧
      fetch_apa_word.authorString (some af) = "N/A") := by
  refine ⟨collectAuthors_eq_filter af, fun h => ?_⟩
  have hc : collectAuthors (some af) = [] := by
    rw [collectAuthors_eq_filter, h]
    rfl
  constructor
  · unfold fetch_apa_excel.authorString
    rw [hc]
    rfl
  · unfold fetch_apa_word.authorString
    rw [hc]
    rfl

theorem unusable_authors_dropped_witness :
    fetch_apa_excel.authorString
      (some [⟨some "", some "Smith"⟩, ⟨none, some "Doe"⟩, ⟨some "Ann", none⟩,
             ⟨some "Ann", some ""⟩]) = "N/A" ∧
    fetch_apa_word.authorString
      (some [⟨some "", some "Smith"⟩, ⟨none, some "Doe"⟩, ⟨some "Ann", none⟩,
             ⟨some "Ann", some ""⟩]) = "N/A" :=
  (unusable_authors_dropped
    [⟨some "", some "Smith"⟩, ⟨none, some "Doe"⟩, ⟨some "Ann", none⟩,
     ⟨some "Ann", some ""⟩]).2 (by decide)

theorem issueRendering_inj (a b : String)
    (h : issueRendering a = issueRendering b) : a = b := by
  unfold issueRendering at h
  rcases eq_or_ne a "N/A" with ha | ha <;> rcases eq_or_ne b "N/A" with hb | hb
  · rw [ha, hb]
  · rw [if_neg (not_not_intro ha), if_pos hb] at h
    exfalso
    have hd := congrArg String.length h.symm
    simp only [String.length_append] at hd
    have h1 : ("(" : String).length = 1 := rfl
    have h2 : (")" : String).length = 1 := rfl
    have h0 : ("" : String).length = 0 := rfl
    omega
  · rw [if_pos ha, if_neg (not_not_intro hb)] at h
    exfalso
    have hd := congrArg String.length h
    simp only [String.length_append] at hd
    have h1 : ("(" : String).length = 1 := rfl
    have h2 : (")" : String).length = 1 := rfl
    have h0 : ("" : String).length = 0 := rfl
    omega
  · rw [if_pos ha, if_pos hb] at h
    have hd := congrArg String.data h
    simp only [String.data_append] at hd
    exact String.ext (List.append_cancel_left (List.append_cancel_right hd))

theorem doiRendering_inj (a b : String)
    (h : doiRendering a = doiRendering b) : a = b := by
  unfold doiRendering at h
  rcases eq_or_ne a "N/A" with ha | ha <;> rcases eq_or_ne b "N/A" with hb | hb
  · rw [ha, hb]
  · rw [if_neg (not_not_intro ha), if_pos hb] at h
    exfalso
    have hd := congrArg String.length h.symm
    simp only [String.length_append] at hd
    have h1 : ("https://doi.org/" : String).length = 16 := rfl
    have h2 : ("N/A" : String).length = 3 := rfl
    omega
  · rw [if_pos ha, if_neg (not_not_intro hb)] at h
    exfalso
    have hd := congrArg String.length h
    simp only [String.length_append] at hd
    have h1 : ("https://doi.org/" : String).length = 16 := rfl
    have h2 : ("N/A" : String).length = 3 := rfl
    omega
  · rw [if_pos ha, if_pos hb] at h
    have hd := congrArg String.data h
    simp only [String.data_append] at hd
    exact String.ext (List.append_cancel_left hd)

/-- C7 counterexample: two records that agree on the author string but
differ in the Volume and Issue fields compose to the same excel-path
citation string, because the template concatenates Volume and the
rendered Issue with nothing between them. -/
theorem nonauthor_fields_conflated_excel :
    (⟨"Lee, A.", "2020", "T", "J", "5(2)", "N/A", "10-20", "N/A"⟩ :
        MetadataRecord).Author =
      (⟨"Lee, A.", "2020", "T", "J", "5", "2", "10-20", "N/A"⟩ :
        MetadataRecord).Author ∧
    (⟨"Lee, A.", "2020", "T", "J", "5(2)", "N/A", "10-20", "N/A"⟩ :
        MetadataRecord).Volume ≠
      (⟨"Lee, A.", "2020", "T", "J", "5", "2", "10-20", "N/A"⟩ :
        MetadataRecord).Volume ∧
    fetch_apa_excel.format_apa
        (.ok ⟨"Lee, A.", "2020", "T", "J", "5(2)", "N/A", "10-20", "N/A"⟩) =
      fetch_apa_excel.format_apa
        (.ok ⟨"Lee, A.", "2020", "T", "J", "5", "2", "10-20", "N/A"⟩) :=
  ⟨rfl, by decide, by decide⟩

/-- C7 amended: the non-author fields are recoverable from the document
path's structured record: two well-shaped records that produce the same
structured reference agree on Year, Title, Journal, Volume, Issue, Pages
and DOI.  (The excel path's single string does not have this property;
see the counterexample.) -/
theorem word_fields_recoverable (r1 r2 : MetadataRecord)
    (h : fetch_apa_word.format_apa (.ok r1) = fetch_apa_word.format_apa (.ok r2)) :
    r1.Year = r2.Year ∧ r1.Title = r2.Title ∧ r1.Journal = r2.Journal ∧
    r1.Volume = r2.Volume ∧ r1.Issue = r2.Issue ∧ r1.Pages = r2.Pages ∧
    r1.DOI = r2.DOI := by
  simp only [fetch_apa_word.format_apa, fetch_apa_word.ApaResult.ref.injEq,
    fetch_apa_word.ApaReference.mk.injEq] at h
  obtain ⟨hA, hY, hT, hJ, hV, hI, hP, hD⟩ := h
  exact ⟨hY, hT, hJ, hV, issueRendering_inj _ _ hI, hP, doiRendering_inj _ _ hD⟩

/-- A concrete well-shaped record used to witness the recoverability
theorem. -/
def exampleRecord : MetadataRecord :=
  ⟨"Lee, A.", "2020", "Study X", "J. of Things", "5", "2", "10-20", "10.1/abc"⟩

theorem word_fields_recoverable_witness :
    exampleRecord.Year = exampleRecord.Year ∧
    exampleRecord.Title = exampleRecord.Title ∧
    exampleRecord.Journal = exampleRecord.Journal ∧
    exampleRecord.Volume = exampleRecord.Volume ∧
    exampleRecord.Issue = exampleRecord.Issue ∧
    exampleRecord.Pages = exampleRecord.Pages ∧
    exampleRecord.DOI = exampleRecord.DOI :=
  word_fields_recoverable exampleRecord exampleRecord rfl

/-- C8: on a well-shaped metadata dictionary (no Error marker, all eight
fields present) both composers return normally: the excel path yields a
string and the word path a structured reference, never a raised
exception. -/
theorem composer_total (m : List (String × String)) (h : wellShapedDict m) :
    (∃ s, fetch_apa_excel.format_apa_onDict m = some s) ∧
    (∃ r, fetch_apa_word.format_apa_onDict m =
      some (fetch_apa_word.ApaResult.ref r)) := by
  obtain ⟨hE, hA, hY, hT, hJ, hV, hI, hP, hD⟩ := h
  rw [Option.isSome_iff_exists] at hA hY hT hJ hV hI hP hD
  obtain ⟨a, ha⟩ := hA
  obtain ⟨y, hy⟩ := hY
  obtain ⟨t, ht⟩ := hT
  obtain ⟨j, hj⟩ := hJ
  obtain ⟨v, hv⟩ := hV
  obtain ⟨i, hi⟩ := hI
  obtain ⟨p, hp⟩ := hP
  obtain ⟨d, hd⟩ := hD
  constructor
  · refine ⟨a ++ " (" ++ y ++ "). " ++ t ++ ". *" ++ j ++ "*, " ++ v ++
      issueRendering i ++ ", " ++ p ++ ". " ++ doiRendering d, ?_⟩
    simp only [fetch_apa_excel.format_apa_onDict, hE, ha, hy, ht, hj, hv, hi,
      hp, hd, Option.some_bind]
  · refine ⟨⟨a, y, t, j, v, issueRendering i, p, doiRendering d⟩, ?_⟩
    simp only [fetch_apa_word.format_apa_onDict, hE, ha, hy, ht, hj, hv, hi,
      hp, hd, Option.some_bind]

/-- The all-sentinel metadata dictionary. -/
def sentinelDict : List (String × String) :=
  [("Author", "N/A"), ("Year", "n.d."), ("Title", "Study X"),
   ("Journal", "N/A"), ("Volume", "N/A"), ("Issue", "N/A"),
   ("Pages", "N/A"), ("DOI", "N/A")]

theorem composer_total_witness :
    (∃ s, fetch_apa_excel.format_apa_onDict sentinelDict = some s) ∧
    (∃ r, fetch_apa_word.format_apa_onDict sentinelDict =
      some (fetch_apa_word.ApaResult.ref r)) :=
  composer_total sentinelDict
    (by refine ⟨?_, ?_, ?_, ?_, ?_, ?_, ?_, ?_, ?_⟩ <;> decide)

theorem buildRecord_author_excel (t : String) (i : Item) (m : MetadataRecord)
    (h : fetch_apa_excel.buildRecord t i = some m) :
    m.Author = fetch_apa_excel.authorString i.author := by
  cases hy : yearField i with
  | none => simp [fetch_apa_excel.buildRecord, hy] at h
  | some y =>
    cases hj : journalField i with
    | none => simp [fetch_apa_excel.buildRecord, hy, hj] at h
    | some j =>
      simp only [fetch_apa_excel.buildRecord, hy, hj, Option.some.injEq] at h
      subst h
      rfl

theorem buildRecord_author_word (t : String) (i : Item) (m : MetadataRecord)
    (h : fetch_apa_word.buildRecord t i = some m) :
    m.Author = fetch_apa_word.authorString i.author := by
  cases hy : yearField i with
  | none => simp [fetch_apa_word.buildRecord, hy] at h
  | some y =>
    cases hj : journalField i with
    | none => simp [fetch_apa_word.buildRecord, hy, hj] at h
    | some j =>
      simp only [fetch_apa_word.buildRecord, hy, hj, Option.some.injEq] at h
      subst h
      rfl

/-- C9: the Author string of a successfully built metadata record is a
pure function of the item's author field: two items with identical author
fields but arbitrarily different titles, years, journals, volumes, issues,
pages or DOIs yield identical Author strings, on both export paths. -/
theorem author_string_pure (t1 t2 : String) (i1 i2 : Item)
    (hA : i1.author = i2.author) :
    (∀ m1 m2, fetch_apa_excel.buildRecord t1 i1 = some m1 →
      fetch_apa_excel.buildRecord t2 i2 = some m2 → m1.Author = m2.Author) ∧
    (∀ m1 m2, fetch_apa_word.buildRecord t1 i1 = some m1 →
      fetch_apa_word.buildRecord t2 i2 = some m2 → m1.Author = m2.Author) := by
  constructor
  · intro m1 m2 h1 h2
    rw [buildRecord_author_excel t1 i1 m1 h1,
      buildRecord_author_excel t2 i2 m2 h2, hA]
  · intro m1 m2 h1 h2
    rw [buildRecord_author_word t1 i1 m1 h1,
      buildRecord_author_word t2 i2 m2 h2, hA]

/-- A fully populated concrete item. -/
def itemW1 : Item :=
  ⟨some [⟨some "Ann", some "Lee"⟩], some [[some 2020]], some ["J. of Things"],
   some "5", some "2", some "10-20", some "10.1/abc"⟩

/-- An item with the same author field as itemW1 and every other field
absent. -/
def itemW2 : Item :=
  ⟨some [⟨some "Ann", some "Lee"⟩], none, none, none, none, none, none⟩

/-- The record the scripts build from itemW1 under title "T1". -/
def recW1 : MetadataRecord :=
  ⟨"Lee, A.", "2020", "T1", "J. of Things", "5", "2", "10-20", "10.1/abc"⟩

/-- The record the scripts build from itemW2 under title "T2". -/
def recW2 : MetadataRecord :=
  ⟨"Lee, A.", "n.d.", "T2", "N/A", "N/A", "N/A", "N/A", "N/A"⟩

theorem author_string_pure_witness :
    recW1.Author = recW2.Author ∧ recW1.Author = recW2.Author :=
  ⟨(author_string_pure "T1" "T2" itemW1 itemW2 rfl).1 recW1 recW2
      (by decide) (by decide),
   (author_string_pure "T1" "T2" itemW1 itemW2 rfl).2 recW1 recW2
      (by decide) (by decide)⟩

theorem splitWsAux_all_ws (cs : List Char)
    (h : ∀ c ∈ cs, c.isWhitespace = true) : splitWsAux cs [] = [] := by
  induction cs with
  | nil => rfl
  | cons c cs ih =>
    have hc : c.isWhitespace = true := h c (List.mem_cons_self c cs)
    simp only [splitWsAux, hc, if_true]
    exact ih (fun x hx => h x (List.mem_cons_of_mem c hx))

/-- C10: an author whose family is non-empty and whose given name is
non-empty but all whitespace is not dropped: the truthiness filter passes,
splitting the given name yields no tokens, the initials are empty, and the
entry renders as the family name followed by a trailing ", " with nothing
after it. -/
theorem whitespace_given_not_dropped (a : RawAuthor)
    (hg : a.given.getD "" ≠ "")
    (hw : ∀ c ∈ (a.given.getD "").data, c.isWhitespace = true)
    (hf : a.family.getD "" ≠ "") :
    formatAuthorEntry a = some (a.family.getD "" ++ ", ") := by
  unfold formatAuthorEntry
  rw [if_pos ⟨hg, hf⟩]
  unfold initialsOf pySplit
  rw [splitWsAux_all_ws _ hw]
  have hempty : String.intercalate " "
      (List.map (fun t => t.take 1 ++ ".") ([] : List String)) = "" := rfl
  rw [hempty, String.append_empty]

theorem whitespace_given_not_dropped_witness :
    formatAuthorEntry ⟨some " ", some "Kim"⟩ = some ("Kim" ++ ", ") :=
  whitespace_given_not_dropped ⟨some " ", some "Kim"⟩
    (by decide) (by decide) (by decide)
